import Mathlib

/-!
Shallow embedding of the core of the `odoo-server-moon` repository:
the permission audit engine (`app/modules/module_manager.py`) and the
service status aggregation layer (`app/services/service_monitor.py`).

OS interactions (subprocess calls, `os.stat`, `os.access`, `pwd`/`grp`
lookups) are modelled by explicit environment records; Python string
operations are embedded by structurally recursive functions over
`List Char` so that every definition evaluates inside the kernel.
-/

set_option maxHeartbeats 1000000

namespace OdooMoon

/-! ### Python string-operation helpers -/

/-- Strip characters satisfying `p` from both ends of a character list
(embeds Python `str.strip` / `str.strip(chars)` at `List Char` level). -/
def stripEndsBy (p : Char → Bool) (l : List Char) : List Char :=
  ((l.dropWhile p).reverse.dropWhile p).reverse

/-- Embeds Python `s.strip()` (whitespace strip at both ends). -/
def pyStrip (s : String) : String :=
  ⟨stripEndsBy Char.isWhitespace s.data⟩

/-- Embeds Python `s.strip('()')`: strip any of the given characters from
both ends. -/
def pyStripChars (cs : List Char) (s : String) : String :=
  ⟨stripEndsBy (fun c => cs.contains c) s.data⟩

/-- Substring test on character lists: `needle` occurs somewhere in `hay`
(embeds Python `needle in hay`). -/
def hasSubList : List Char → List Char → Bool
  | hay, needle =>
    needle.isPrefixOf hay ||
      (match hay with
       | [] => false
       | _ :: t => hasSubList t needle)

/-- Embeds Python `needle in hay` for strings. -/
def hasSubStr (hay needle : String) : Bool :=
  hasSubList hay.data needle.data

/-- Fuel-driven splitting on a (nonempty) separator pattern; `fuel` is the
length of the scanned list, so the fallback branch is unreachable.
Embeds Python `s.split(sep)` (all occurrences, left to right,
non-overlapping). -/
def pySplitFuel (sep : List Char) : Nat → List Char → List Char → List (List Char)
  | _, [], cur => [cur.reverse]
  | 0, l, cur => [cur.reverse ++ l]
  | fuel + 1, c :: rest, cur =>
    if sep.isPrefixOf (c :: rest) then
      cur.reverse :: pySplitFuel sep fuel (List.drop (sep.length - 1) rest) []
    else
      pySplitFuel sep fuel rest (c :: cur)

/-- Embeds Python `s.split(sep)` for a nonempty separator string. -/
def pySplitStr (sep : String) (s : String) : List String :=
  (pySplitFuel sep.data s.data.length s.data []).map (fun l => ⟨l⟩)

/-- Fuel-driven replacement of every occurrence of `pat` by `rep`
(embeds Python `s.replace(pat, rep)` for nonempty `pat`). -/
def pyReplaceFuel (pat rep : List Char) : Nat → List Char → List Char
  | _, [] => []
  | 0, l => l
  | fuel + 1, c :: rest =>
    if pat.isPrefixOf (c :: rest) then
      rep ++ pyReplaceFuel pat rep fuel (List.drop (pat.length - 1) rest)
    else
      c :: pyReplaceFuel pat rep fuel rest

/-- Embeds Python `s.replace(pat, rep)` for a nonempty pattern. -/
def pyReplaceStr (pat rep s : String) : String :=
  ⟨pyReplaceFuel pat.data rep.data s.data.length s.data⟩

/-- Whitespace tokenisation: embeds Python `s.split()` (no argument), which
splits on runs of whitespace and drops empty tokens. -/
def wsSplitAux : List Char → List Char → List (List Char)
  | [], [] => []
  | [], cur => [cur.reverse]
  | c :: t, cur =>
    if c.isWhitespace then
      (if cur.isEmpty then wsSplitAux t [] else cur.reverse :: wsSplitAux t [])
    else
      wsSplitAux t (c :: cur)

/-- Embeds Python `s.split()` for strings. -/
def pySplitWs (s : String) : List String :=
  (wsSplitAux s.data []).map (fun l => ⟨l⟩)

/-- Embeds Python `s.startswith(pre)`. -/
def pyStartsWith (s pre : String) : Bool :=
  pre.data.isPrefixOf s.data

/-- Number of lines Python computes as `len(stdout.strip().split('\n'))`
when `stdout` consists of the given newline-terminated lines: one when
there are no lines (splitting the empty string yields `['']`), otherwise
the number of lines. -/
def pyCountLines (lines : List String) : Nat :=
  if lines.isEmpty then 1 else lines.length

/-! ### Service registry data model (`config["services"]`) -/

/-- One entry of the configured service registry
(a value of the `config["services"]` JSON object).
`instances := none` models a config record without an `"instances"` key
(Python `service_config.get("instances", [])` then yields a fresh list,
so appends to it are invisible in the registry). -/
structure ServiceConf where
  service_name : String
  instances : Option (List String)
  auto_detect : Bool
  deriving DecidableEq

/-- The service registry: `config["services"]` as an insertion-ordered
association list. -/
abbrev Services := List (String × ServiceConf)

/-- Result map under construction: a Python `dict` as an insertion-ordered
association list. -/
abbrev Dict := List (String × String)

/-- Python `d[k] = v` on an insertion-ordered dict: update in place if the
key is present, otherwise append. -/
def dictInsert (m : Dict) (k v : String) : Dict :=
  if (m.map Prod.fst).contains k then
    m.map (fun p => if p.1 = k then (p.1, v) else p)
  else
    m ++ [(k, v)]

/-- Python `d.get(k)` / `k in d` on an association list. -/
def dictLookup (m : Dict) (k : String) : Option String :=
  (m.find? (fun p => p.1 = k)).map Prod.snd

/-- Lookup of a key in the service registry (`key in config["services"]`,
`config["services"][key]`). -/
def confLookup (services : Services) (k : String) : Option ServiceConf :=
  (services.find? (fun p => p.1 = k)).map Prod.snd

/-! ### OS environment for the service monitor -/

/-- Responses of the OS to the `systemctl` invocations issued by
`service_monitor.py`.  A `none` response models the subprocess call
raising an exception. -/
structure SvcEnv where
  /-- stdout of `systemctl is-active <name>` (raw, before `.strip()`). -/
  isActive : String → Option String
  /-- stdout lines of `systemctl status <name>` (after Python's
  `stdout.split('\n')`). -/
  statusLines : String → Option (List String)
  /-- stdout lines of `systemctl list-units postgresql@* --no-legend`. -/
  listUnits : Option (List String)

/-- Parse of the `Active:` line of `systemctl status` output
(`service_monitor.get_service_status`, lines 47-53): find the first line
containing `Active:`, take the text after the first colon, strip it, take
the first space-separated token and strip surrounding parentheses.  If no
line matches, the fallback (the `is-active` result) is kept. -/
def parseActiveLine (lines : List String) (fallback : String) : String :=
  match lines.find? (fun l => hasSubStr l "Active:") with
  | none => fallback
  | some l =>
    let afterColon : List Char := (l.data.dropWhile (fun c => c ≠ ':')).drop 1
    let trimmed := stripEndsBy Char.isWhitespace afterColon
    let firstTok := trimmed.takeWhile (fun c => c ≠ ' ')
    ⟨stripEndsBy (fun c => c = '(' || c = ')') firstTok⟩

/-- Embeds `service_monitor.get_service_status`: run `systemctl is-active`;
if the stripped output is not `"active"`, run `systemctl status` and parse
the `Active:` line; any subprocess exception yields `"error"`. -/
def get_service_status (env : SvcEnv) (service_name : String) : String :=
  match env.isActive service_name with
  | none => "error"
  | some out =>
    let status := pyStrip out
    if status = "active" then status
    else
      match env.statusLines service_name with
      | none => "error"
      | some lines => parseActiveLine lines status

/-- Embeds `service_monitor.detect_postgresql_instances`: parse each line of
`systemctl list-units postgresql@* --no-legend`, keep first whitespace
tokens starting with `postgresql@`, drop the `.service` suffix (Python
`replace(".service", "")`); an exception yields `[]`. -/
def detect_postgresql_instances (env : SvcEnv) : List String :=
  match env.listUnits with
  | none => []
  | some lines =>
    lines.filterMap (fun line =>
      match pySplitWs (pyStrip line) with
      | [] => none
      | p0 :: _ =>
        if pyStartsWith p0 "postgresql@" then
          some (pyReplaceStr ".service" "" p0)
        else none)

/-- The dedup-append loop of `get_all_services_status` (lines 125-127):
`for instance in detected: if instance not in instances:
instances.append(instance)`. -/
def appendNew (acc : List String) (xs : List String) : List String :=
  xs.foldl (fun a i => if a.contains i then a else a ++ [i]) acc

/-- The final instance list for the `postgres` entry: configured instances
(empty when the `"instances"` key is absent), extended by auto-detected
instances when `auto_detect` is set. -/
def instancesFor (env : SvcEnv) (sc : ServiceConf) : List String :=
  let inst0 := sc.instances.getD []
  if sc.auto_detect then appendNew inst0 (detect_postgresql_instances env) else inst0

/-- The per-instance inner loop of `get_all_services_status`
(lines 130-132): derive `"{key}_{instance.replace('@', '_')}"` and store
that instance's status. -/
def instLoop (env : SvcEnv) (key : String) : List String → Dict → Dict
  | [], m => m
  | i :: rest, m =>
    instLoop env key rest
      (dictInsert m (key ++ "_" ++ pyReplaceStr "@" "_" i) (get_service_status env i))

/-- One iteration of the `get_all_services_status` loop body for entry
`(key, sc)`: store the entry's own status; for the `postgres` key, also
compute the instance list (mutating the registry's stored list in place —
modelled by the returned `ServiceConf`) and store each instance's status. -/
def processEntry (env : SvcEnv) (m : Dict) (key : String) (sc : ServiceConf) :
    Dict × ServiceConf :=
  let m1 := dictInsert m key (get_service_status env sc.service_name)
  if key = "postgres" then
    let insts := instancesFor env sc
    (instLoop env key insts m1, { sc with instances := sc.instances.map (fun _ => insts) })
  else
    (m1, sc)

/-- The `get_all_services_status` loop, threading the result dict and the
(possibly mutated) registry entries. -/
def get_all_services_status_aux (env : SvcEnv) :
    Services → Dict → Services → Dict × Services
  | [], m, acc => (m, acc)
  | (key, sc) :: rest, m, acc =>
    let p := processEntry env m key sc
    get_all_services_status_aux env rest p.1 (acc ++ [(key, p.2)])

/-- Embeds `service_monitor.get_all_services_status`.  The second component
is the service registry as it stands after the call: Python mutates the
configured `instances` lists in place (`instances.append(instance)` on the
list obtained from `service_config.get("instances", [])`), which this
embedding makes explicit by returning the post-call registry. -/
def get_all_services_status (env : SvcEnv) (services : Services) : Dict × Services :=
  get_all_services_status_aux env services [] []

/-- Embeds `service_monitor.get_service_name_from_key`: keys containing
`"_postgresql_"` that split into exactly two parts resolve to
`"postgresql@{instance}"`; otherwise the text before the first underscore
is looked up in the registry; otherwise the key itself is returned. -/
def get_service_name_from_key (services : Services) (service_key : String) : String :=
  if hasSubStr service_key "_postgresql_" then
    if (pySplitStr "_postgresql_" service_key).length = 2 then
      "postgresql@" ++ ((pySplitStr "_postgresql_" service_key).getD 1 "")
    else
      regularService services service_key
  else
    regularService services service_key
where
  /-- The fall-through branch (lines 157-164): the first underscore-segment
  of the key (`service_key.split("_")[0]`) looked up in the registry, else
  the key itself. -/
  regularService (services : Services) (service_key : String) : String :=
    match confLookup services ((pySplitStr "_" service_key).getD 0 "") with
    | some sc => sc.service_name
    | none => service_key

/-- OS responses for the service control commands (`sudo systemctl
start/stop/restart <name>`): `true` models a zero exit status. -/
structure CtrlEnv where
  runStart : String → Bool
  runStop : String → Bool
  runRestart : String → Bool

/-- Embeds `service_monitor.start_service`: resolve the key and run
`sudo systemctl start` on the resolved name. -/
def start_service (env : CtrlEnv) (services : Services) (service_key : String) : Bool :=
  env.runStart (get_service_name_from_key services service_key)

/-- Embeds `service_monitor.stop_service`. -/
def stop_service (env : CtrlEnv) (services : Services) (service_key : String) : Bool :=
  env.runStop (get_service_name_from_key services service_key)

/-- Embeds `service_monitor.restart_service`. -/
def restart_service (env : CtrlEnv) (services : Services) (service_key : String) : Bool :=
  env.runRestart (get_service_name_from_key services service_key)

/-! ### Permission classifier (`module_manager.check_directory_permissions`) -/

/-- One filesystem entry visible to the `find` commands run by the
consistency scan (the audited directory itself has `depth = 0`).
`isFile`/`isDir` mirror the `find -type f` / `-type d` tests (both false
for symbolic links and other special entries); `mode` is the full
`st_mode`; `user`/`group` are the names `find -user` / `-group` match. -/
structure FsEntry where
  path : String
  depth : Nat
  isFile : Bool
  isDir : Bool
  mode : Nat
  user : String
  group : String
  deriving DecidableEq

/-- OS responses consumed by `check_directory_permissions`.
`dirStat = none` models `os.stat` raising; `loginUser = none` models
`os.getlogin` raising; `findOk = false` models the `find` subprocess
machinery raising (caught internally, lines 283-286). -/
structure ClsEnv where
  pathExists : Bool
  /-- The `(st_mode, st_uid, st_gid)` triple of the directory. -/
  dirStat : Option (Nat × Int × Int)
  /-- Results of `os.access(directory, os.R_OK / W_OK / X_OK)`. -/
  accessR : Bool
  accessW : Bool
  accessX : Bool
  /-- Result of `get_odoo_uid()` (−1 when the user cannot be resolved). -/
  odooUid : Int
  /-- Result of `get_odoo_gid()`. -/
  odooGid : Int
  /-- Result of `get_odoo_user()` / `get_odoo_group()`. -/
  odooUser : String
  odooGroup : String
  findOk : Bool
  /-- Entries of the audited directory tree as traversed by `find`
  (in traversal order, the root first). -/
  tree : List FsEntry
  /-- Name resolution via `pwd.getpwuid` / `grp.getgrgid` (`none` = raises). -/
  ownerNameOf : Int → Option String
  groupNameOf : Int → Option String
  /-- Result of `grp.getgrnam(odoo_group).gr_mem`. -/
  odooGroupMembers : List String
  loginUser : Option String
  /-- Whether `pwd.getpwnam(u)` succeeds. -/
  userExists : String → Bool
  /-- Primary gid of a user (consulted only when the user exists). -/
  userGid : String → Int

/-- What the first `find` command prints (lines 236-244):
`find dir -type f ! -user U -o ! -group G -maxdepth 3 -print -quit`.
Under find's operator precedence this expression is
`(-type f ∧ ¬user U) ∨ (¬group G ∧ -print ∧ -quit)`, so an entry is
printed exactly when the left disjunct is false and its group is not the
odoo group (with explicit actions present, find adds no implicit print). -/
def find1Hit (env : ClsEnv) (e : FsEntry) : Bool :=
  decide (e.depth ≤ 3) && !(e.isFile && e.user != env.odooUser) &&
    (e.group != env.odooGroup)

/-- Second `find` (lines 254-261): files within depth 3 failing
`-perm -664` (not all of the 664 bits set). -/
def find2Hit (e : FsEntry) : Bool :=
  decide (e.depth ≤ 3) && e.isFile && !(decide (e.mode &&& 0o664 = 0o664))

/-- Third `find` (lines 269-276): directories within depth 3 failing
`-perm -775`. -/
def find3Hit (e : FsEntry) : Bool :=
  decide (e.depth ≤ 3) && e.isDir && !(decide (e.mode &&& 0o775 = 0o775))

/-- The bulk consistency scan of `check_directory_permissions`
(lines 227-286): three staged `find` queries, each stopping at its first
match (`-quit`); a later query only runs / counts when the earlier ones
found nothing.  If the `find` machinery fails, fall back to
`is_odoo_owner and is_odoo_group`.  Returns
`(files_consistent, inconsistent_files)`. -/
def consistencyScan (env : ClsEnv) (is_odoo_owner is_odoo_group : Bool) :
    Bool × List String :=
  if env.findOk then
    match env.tree.find? (find1Hit env) with
    | some e => (false, [e.path])
    | none =>
      match env.tree.find? find2Hit with
      | some e => (false, [e.path])
      | none =>
        match env.tree.find? find3Hit with
        | some e => (false, [e.path])
        | none => (true, [])
  else
    (is_odoo_owner && is_odoo_group, [])

/-- Embeds `module_manager.is_user_in_odoo_group`: a nonexistent user is
`False`; otherwise membership in the odoo group's member list or matching
primary gid. -/
def is_user_in_odoo_group (env : ClsEnv) (username : String) : Bool :=
  if env.userExists username then
    env.odooGroupMembers.contains username || env.userGid username == env.odooGid
  else
    false

/-- Octal digit character. -/
def octChar (n : Nat) : Char := Char.ofNat (48 + n % 8)

/-- Embeds `oct(st_mode)[-3:]` for a real `st_mode` (which always carries
file-type bits, so its octal form has at least three digits): the last
three octal digits. -/
def modeOctal (m : Nat) : String :=
  ⟨[octChar (m / 64), octChar (m / 8), octChar m]⟩

/-- The full permission report dict built at lines 332-354.
`inconsistent_files = none` models the key being absent (it is only added
when `files_consistent` is false). -/
structure PermReport where
  status : String
  readable : Bool
  writable : Bool
  executable : Bool
  group_readable : Bool
  group_writable : Bool
  group_executable : Bool
  others_readable : Bool
  others_writable : Bool
  others_executable : Bool
  files_consistent : Bool
  owner : String
  group : String
  is_odoo_owner : Bool
  is_odoo_group : Bool
  odoo_group_members : List String
  current_user_in_odoo_group : Bool
  mode : String
  inconsistent_files : Option (List String)
  deriving DecidableEq

/-- The three shapes of dict `check_directory_permissions` can return:
the `not_found` dict (line 195), the exception dict (line 361), or the
full report. -/
inductive CheckResult where
  | notFound (error : String)
  | errorResult (error : String)
  | report (r : PermReport)
  deriving DecidableEq

/-- The `status` value of any of the three result dicts. -/
def CheckResult.statusOf : CheckResult → String
  | .notFound _ => "not_found"
  | .errorResult _ => "error"
  | .report r => r.status

/-- Embeds `module_manager.check_directory_permissions`.  All failure
points inside the outer `try` that are not caught internally (`os.stat`,
`os.getlogin`) surface as the `errorResult` dict; a missing path
short-circuits to `notFound` before the `try`. -/
def check_directory_permissions (env : ClsEnv) : CheckResult :=
  if env.pathExists = false then
    .notFound "Directory does not exist"
  else
    match env.dirStat with
    | none => .errorResult "os.stat failed"
    | some (dirMode, dirUid, dirGid) =>
      let readable := env.accessR
      let writable := env.accessW
      let executable := env.accessX
      let group_readable := !(decide (dirMode &&& 0o040 = 0))
      let group_writable := !(decide (dirMode &&& 0o020 = 0))
      let group_executable := !(decide (dirMode &&& 0o010 = 0))
      let others_readable := !(decide (dirMode &&& 0o004 = 0))
      let others_writable := !(decide (dirMode &&& 0o002 = 0))
      let others_executable := !(decide (dirMode &&& 0o001 = 0))
      let is_odoo_owner := decide (dirUid = env.odooUid)
      let is_odoo_group := decide (dirGid = env.odooGid)
      let scan := consistencyScan env is_odoo_owner is_odoo_group
      let files_consistent := scan.1
      let inconsistent_files := scan.2
      let group_has_proper_permissions :=
        group_readable && group_writable && group_executable
      let status :=
        if !readable || !executable then "error"
        else if !is_odoo_owner then "error"
        else if !writable then "warning"
        else if !files_consistent then "warning"
        else if !group_has_proper_permissions then "warning"
        else if !(others_readable && others_executable) then "warning"
        else "ok"
      let owner_name := (env.ownerNameOf dirUid).getD (toString dirUid)
      let group_name := (env.groupNameOf dirGid).getD (toString dirGid)
      match env.loginUser with
      | none => .errorResult "os.getlogin failed"
      | some current_user =>
        .report
          { status := status
            readable := readable
            writable := writable
            executable := executable
            group_readable := group_readable
            group_writable := group_writable
            group_executable := group_executable
            others_readable := others_readable
            others_writable := others_writable
            others_executable := others_executable
            files_consistent := files_consistent
            owner := owner_name
            group := group_name
            is_odoo_owner := is_odoo_owner
            is_odoo_group := is_odoo_group
            odoo_group_members := env.odooGroupMembers
            current_user_in_odoo_group := is_user_in_odoo_group env current_user
            mode := modeOctal dirMode
            inconsistent_files :=
              if files_consistent then none else some (inconsistent_files.take 5) }

/-! ### Permission reconciler (`module_manager.fix_directory_permissions`) -/

/-- A contained filesystem object below the fixed directory: a regular
file or a directory (`isDir = true` for directories), i.e. the objects
the recursive chown and the two recursive chmod finds touch.  Note the
counting `find dir -type f -o -type d -print` prints only the directories
among them (see `findCountLines`). -/
structure FsObj where
  path : String
  isDir : Bool
  mode : Nat
  user : String
  group : String
  deriving DecidableEq

/-- Filesystem state rooted at the directory being fixed, together with the
success/failure behaviour of each external command the function runs
(`false` models the command raising; `check=True` turns a nonzero exit
status into an exception). -/
structure FixState where
  /-- The `directory` argument. -/
  dir : String
  pathExists : Bool
  /-- Mode/ownership of the directory itself. -/
  rootMode : Nat
  rootUser : String
  rootGroup : String
  /-- Proper contained objects, in `find` traversal order. -/
  children : List FsObj
  /-- Results of `get_odoo_user()` / `get_odoo_group()`. -/
  odooUser : String
  odooGroup : String
  /-- Whether `sudo chmod 775 directory` succeeds. -/
  chmodRootOk : Bool
  /-- Whether `sudo chown odoo:odoo directory` succeeds. -/
  chownRootOk : Bool
  /-- Whether `os.getlogin()` succeeds (line 403, inside the outer `try` only). -/
  loginOk : Bool
  /-- Whether `sudo chown -R` succeeds. -/
  chownROk : Bool
  /-- the counting `find` succeeds. -/
  findCountOk : Bool
  /-- Whether the recursive directory chmod succeeds. -/
  chmodDirsOk : Bool
  /-- Whether the recursive file chmod succeeds. -/
  chmodFilesOk : Bool
  deriving DecidableEq

/-- Effect of `sudo chmod 775 directory` (line 392). -/
def chmodRoot (s : FixState) : FixState := { s with rootMode := 0o775 }

/-- Effect of `sudo chown odoo_user:odoo_group directory` (line 399). -/
def chownRoot (s : FixState) : FixState :=
  { s with rootUser := s.odooUser, rootGroup := s.odooGroup }

/-- Effect of `sudo chown -R odoo_user:odoo_group directory` (line 427). -/
def chownRecursive (s : FixState) : FixState :=
  { s with rootUser := s.odooUser, rootGroup := s.odooGroup,
           children := s.children.map (fun o => { o with user := s.odooUser, group := s.odooGroup }) }

/-- Lines printed by `find directory -type f -o -type d -print`
(line 431).  Under find's operator precedence this expression parses as
`(-type f) ∨ (-type d ∧ -print)`: the explicit `-print` action belongs to
the right disjunct only and suppresses the implicit print, so a file
matches the actionless left disjunct and prints nothing.  The printed
lines are therefore the directory itself followed by every contained
directory; contained files are traversed but produce no output line. -/
def findCountLines (s : FixState) : List String :=
  s.dir :: (s.children.filter (fun o => o.isDir)).map (fun o => o.path)

/-- Effect of `sudo find directory -type d -exec chmod 775 {} ;`
(line 438): every directory, the root included, gets mode 775. -/
def chmodDirsRecursive (s : FixState) : FixState :=
  { s with rootMode := 0o775,
           children := s.children.map (fun o => if o.isDir then { o with mode := 0o775 } else o) }

/-- Effect of `sudo find directory -type f -exec chmod 664 {} ;`
(line 443): every regular file gets mode 664. -/
def chmodFilesRecursive (s : FixState) : FixState :=
  { s with children := s.children.map (fun o => if o.isDir then o else { o with mode := 0o664 }) }

/-- The two result-dict shapes of `fix_directory_permissions`: the
exception dict `{"success": False, "error": ...}` or the counted outcome
`{"success", "status", "fixed_count", "failed_count"}` (lines 458-463). -/
inductive FixResult where
  | errorResult (error : String)
  | counted (success : Bool) (status : String) (fixed_count failed_count : Nat)
  deriving DecidableEq

/-- The inner `try` of lines 422-448: recursive chown, then the counting
`find` whose line count is added to `fixed_count` (line 433-434), then the
two recursive chmods.  The first failing step raises, adding exactly one
to `failed_count` (line 448) and skipping the remaining steps; mutations
already performed persist. -/
def recursivePhase (s : FixState) : Nat × Nat × FixState :=
  if s.chownROk = false then (0, 1, s)
  else
    let s1 := chownRecursive s
    if s1.findCountOk = false then (0, 1, s1)
    else
      let fixed := pyCountLines (findCountLines s1)
      if s1.chmodDirsOk = false then (fixed, 1, s1)
      else
        let s2 := chmodDirsRecursive s1
        if s2.chmodFilesOk = false then (fixed, 1, s2)
        else (fixed, 0, chmodFilesRecursive s2)

/-- Embeds `module_manager.fix_directory_permissions`.  A missing path or a
failure of the directory's own chmod/chown (which run with `check=True`
outside the inner `try`) yields the exception dict; the best-effort group
membership block (lines 402-416) touches only group membership, which is
outside the modelled filesystem state, and never affects the outcome;
`os.getlogin()` (line 403) can still raise to the outer handler. -/
def fix_directory_permissions (s : FixState) : FixResult × FixState :=
  if s.pathExists = false then
    (.errorResult "Directory does not exist", s)
  else if s.chmodRootOk = false then
    (.errorResult "chmod failed", s)
  else
    let s1 := chmodRoot s
    if s1.chownRootOk = false then (.errorResult "chown failed", s1)
    else
      let s2 := chownRoot s1
      if s2.loginOk = false then (.errorResult "os.getlogin failed", s2)
      else
        let rp := recursivePhase s2
        let fixed_count := rp.1
        let failed_count := rp.2.1
        let status :=
          if failed_count = 0 then "fixed"
          else if fixed_count > 0 then "partially_fixed"
          else "failed"
        (.counted (decide (fixed_count > 0)) status fixed_count failed_count, rp.2.2)

/-! ### Derived characterisations used by the theorems -/

/-- The registry entry as it stands after one `get_all_services_status`
iteration processed it: only the `postgres` entry with a present
`"instances"` key can change (the list object Python mutates in place). -/
def postConf (env : SvcEnv) (key : String) (sc : ServiceConf) : ServiceConf :=
  if key = "postgres" then
    { sc with instances := sc.instances.map (fun _ => instancesFor env sc) }
  else sc

/-- The key/status pairs one registry entry contributes to the result map,
in insertion order: the entry's own key, then (for `postgres`) one derived
key per instance. -/
def entryPairs (env : SvcEnv) (key : String) (sc : ServiceConf) :
    List (String × String) :=
  (key, get_service_status env sc.service_name) ::
    (if key = "postgres" then
      (instancesFor env sc).map
        (fun i => (key ++ "_" ++ pyReplaceStr "@" "_" i, get_service_status env i))
    else [])

/-- All key/status pairs `get_all_services_status` produces, entry by
entry. -/
def allPairs (env : SvcEnv) : Services → List (String × String)
  | [] => []
  | (key, sc) :: rest => entryPairs env key sc ++ allPairs env rest

/-- The `files_consistent` field of a full report, when one was produced. -/
def CheckResult.filesConsistentOf : CheckResult → Option Bool
  | .report r => some r.files_consistent
  | _ => none

/-- The reference consistency verdict, stated from the specification's
words: `files_consistent` is false iff some sampled contained file's
group/other read/write permission bits diverge from the directory's own
group/other bits (files within the depth-3 sampling window; the 10-files-
per-level sampling cap only shrinks the sample, which is irrelevant to the
single-file counterexample below). -/
def filesConsistentSpec (env : ClsEnv) : Bool :=
  match env.dirStat with
  | none => true
  | some (dirMode, _, _) =>
    env.tree.all (fun e =>
      !(e.isFile && decide (1 ≤ e.depth) && decide (e.depth ≤ 3)) ||
        decide (e.mode &&& 0o066 = dirMode &&& 0o066))

/-- The normal form a contained object reaches when every reconcile
command succeeds: odoo ownership, mode 775 for directories and 664 for
files. -/
def normObj (u g : String) (o : FsObj) : FsObj :=
  if o.isDir then ⟨o.path, true, 0o775, u, g⟩ else ⟨o.path, false, 0o664, u, g⟩

/-- The filesystem state after a fully successful
`fix_directory_permissions` run. -/
def finalState (s : FixState) : FixState :=
  { s with rootMode := 0o775, rootUser := s.odooUser, rootGroup := s.odooGroup,
           children := s.children.map (normObj s.odooUser s.odooGroup) }

/-! ### Concrete sample states for witnesses and counterexamples -/

/-- A systemctl environment in which every unit reports `active` and one
PostgreSQL unit, `postgresql@14-main`, is registered. -/
def svcEnvActive : SvcEnv where
  isActive := fun _ => some "active\n"
  statusLines := fun _ => none
  listUnits := some
    ["postgresql@14-main.service loaded active running PostgreSQL Cluster 14-main"]

/-- Registry with a plain `odoo` entry and an auto-detecting `postgres`
family whose configured instance list is present but empty. -/
def svcRegistryAuto : Services :=
  [("odoo", ⟨"odoo", none, false⟩),
   ("postgres", ⟨"postgresql", some [], true⟩)]

/-- Registry in which the discovered instance `postgresql@14-main` is also
explicitly configured (a duplicate). -/
def svcRegistryDup : Services :=
  [("odoo", ⟨"odoo", none, false⟩),
   ("postgres", ⟨"postgresql", some ["postgresql@14-main"], true⟩)]

/-- A systemctl environment in which every query for the unit `postgresql`
raises and every other unit reports `active`; no PostgreSQL units are
registered. -/
def svcEnvFail : SvcEnv where
  isActive := fun n => if n = "postgresql" then none else some "active\n"
  statusLines := fun n => if n = "postgresql" then none else some []
  listUnits := some []

/-- Control environment: start/restart succeed, stop fails. -/
def ctrlEnvSample : CtrlEnv where
  runStart := fun _ => true
  runStop := fun _ => false
  runRestart := fun _ => true

/-- A healthy audited directory: mode 0775, owned by the odoo identity,
containing one compliant file. -/
def clsEnvOk : ClsEnv where
  pathExists := true
  dirStat := some (0o40775, 101, 102)
  accessR := true
  accessW := true
  accessX := true
  odooUid := 101
  odooGid := 102
  odooUser := "odoo"
  odooGroup := "odoo"
  findOk := true
  tree := [⟨"/addons/good", 0, false, true, 0o40775, "odoo", "odoo"⟩,
           ⟨"/addons/good/a.py", 1, true, false, 0o100664, "odoo", "odoo"⟩]
  ownerNameOf := fun _ => some "odoo"
  groupNameOf := fun _ => some "odoo"
  odooGroupMembers := ["dev"]
  loginUser := some "dev"
  userExists := fun _ => true
  userGid := fun _ => 1000

/-- The report `check_directory_permissions` produces on `clsEnvOk`. -/
def reportOfOk : PermReport where
  status := "ok"
  readable := true
  writable := true
  executable := true
  group_readable := true
  group_writable := true
  group_executable := true
  others_readable := true
  others_writable := false
  others_executable := true
  files_consistent := true
  owner := "odoo"
  group := "odoo"
  is_odoo_owner := true
  is_odoo_group := true
  odoo_group_members := ["dev"]
  current_user_in_odoo_group := true
  mode := "775"
  inconsistent_files := none

/-- An audit target that does not exist. -/
def clsEnvMissing : ClsEnv where
  pathExists := false
  dirStat := none
  accessR := false
  accessW := false
  accessX := false
  odooUid := 101
  odooGid := 102
  odooUser := "odoo"
  odooGroup := "odoo"
  findOk := false
  tree := []
  ownerNameOf := fun _ => none
  groupNameOf := fun _ => none
  odooGroupMembers := []
  loginUser := none
  userExists := fun _ => false
  userGid := fun _ => -1

/-- A private directory, mode 0700, correctly owned by the odoo identity,
containing one file of mode 0600 with the same ownership.  Its file's
group/other bits agree with the directory's own (none set), yet the file
fails the fixed `-perm -664` target of the bulk scan. -/
def clsEnvPrivate : ClsEnv where
  pathExists := true
  dirStat := some (0o40700, 101, 102)
  accessR := true
  accessW := true
  accessX := true
  odooUid := 101
  odooGid := 102
  odooUser := "odoo"
  odooGroup := "odoo"
  findOk := true
  tree := [⟨"/addons/priv", 0, false, true, 0o40700, "odoo", "odoo"⟩,
           ⟨"/addons/priv/a.py", 1, true, false, 0o100600, "odoo", "odoo"⟩]
  ownerNameOf := fun _ => some "odoo"
  groupNameOf := fun _ => some "odoo"
  odooGroupMembers := ["dev"]
  loginUser := some "dev"
  userExists := fun _ => true
  userGid := fun _ => 1000

/-- A reconcile target whose tree is just the directory itself, with every
external command succeeding. -/
def fixStateOne : FixState where
  dir := "/addons/solo"
  pathExists := true
  rootMode := 0o700
  rootUser := "root"
  rootGroup := "root"
  children := []
  odooUser := "odoo"
  odooGroup := "odoo"
  chmodRootOk := true
  chownRootOk := true
  loginOk := true
  chownROk := true
  findCountOk := true
  chmodDirsOk := true
  chmodFilesOk := true

/-- A reconcile target with one contained file, all commands succeeding. -/
def fixStateOk : FixState where
  dir := "/addons/good"
  pathExists := true
  rootMode := 0o700
  rootUser := "root"
  rootGroup := "root"
  children := [⟨"/addons/good/a.py", false, 0o600, "root", "root"⟩]
  odooUser := "odoo"
  odooGroup := "odoo"
  chmodRootOk := true
  chownRootOk := true
  loginOk := true
  chownROk := true
  findCountOk := true
  chmodDirsOk := true
  chmodFilesOk := true

/-! ## Theorems -/

/-- Every `pyCountLines` value is positive: Python's
`len(stdout.strip().split('\n'))` is at least 1. -/
theorem pyCountLines_pos (l : List String) : 0 < pyCountLines l := by
  cases l <;> simp [pyCountLines]

/-- C10: for every service key that does not contain the substring
`"_postgresql_"` and whose base segment (the text before the first
underscore) is not a key of the configured service registry,
`get_service_name_from_key` returns the key itself unchanged, so start,
stop and restart issue the underlying `systemctl` control command against
the raw key verbatim. -/
theorem get_service_name_from_key_fallback (services : Services) (key : String)
    (env : CtrlEnv)
    (h1 : hasSubStr key "_postgresql_" = false)
    (h2 : confLookup services ((pySplitStr "_" key).getD 0 "") = none) :
    get_service_name_from_key services key = key ∧
    start_service env services key = env.runStart key ∧
    stop_service env services key = env.runStop key ∧
    restart_service env services key = env.runRestart key := by
  have hres : get_service_name_from_key services key = key := by
    unfold get_service_name_from_key get_service_name_from_key.regularService
    rw [h1, h2]
    simp
  exact ⟨hres, by rw [start_service, hres], by rw [stop_service, hres],
    by rw [restart_service, hres]⟩

/-- Witness for `get_service_name_from_key_fallback` at the concrete key
`"nginx"` and the sample registry. -/
theorem get_service_name_from_key_fallback_witness :
    get_service_name_from_key svcRegistryAuto "nginx" = "nginx" ∧
    start_service ctrlEnvSample svcRegistryAuto "nginx" = ctrlEnvSample.runStart "nginx" ∧
    stop_service ctrlEnvSample svcRegistryAuto "nginx" = ctrlEnvSample.runStop "nginx" ∧
    restart_service ctrlEnvSample svcRegistryAuto "nginx" = ctrlEnvSample.runRestart "nginx" :=
  get_service_name_from_key_fallback svcRegistryAuto "nginx" ctrlEnvSample
    (by decide) (by decide)

/-- C1 (counterexample): with logical entries `odoo` and `postgres` and a
discovered PostgreSQL instance `14-main`, the returned map's keys are
`odoo`, `postgres` and `postgres_postgresql_14-main` — the derived key is
built from the full unit name `postgresql@14-main` with `@` replaced by
`_`, and the family's base key also appears — so the claimed key
`postgres_14-main` is absent. -/
theorem get_all_services_status_key_shape_cex :
    ((get_all_services_status svcEnvActive svcRegistryAuto).1.map Prod.fst
      = ["odoo", "postgres", "postgres_postgresql_14-main"]) ∧
    dictLookup (get_all_services_status svcEnvActive svcRegistryAuto).1
      "postgres_14-main" = none := by
  decide

/-- C1 (amended): in the same scenario, with `postgresql@14-main` both
discovered and explicitly configured (a duplicate), `get_all_services_status`
returns exactly the keys `odoo`, `postgres` and
`postgres_postgresql_14-main` — one derived key per distinct instance, each
mapped to a state string. -/
theorem get_all_services_status_scenario_amended :
    (get_all_services_status svcEnvActive svcRegistryDup).1
      = [("odoo", "active"), ("postgres", "active"),
         ("postgres_postgresql_14-main", "active")] := by
  decide

/-- C6 (counterexample): `get_all_services_status` mutates the process-wide
service registry: with an auto-detecting `postgres` entry whose configured
instance list is present (and empty), the discovered instance is appended
in place, so the registry after the call differs from the registry before
it. -/
theorem get_all_services_status_mutates_registry_cex :
    (get_all_services_status svcEnvActive svcRegistryAuto).2 ≠ svcRegistryAuto := by
  decide

/-- C2: for every existing directory whose metadata is successfully
inspected (a full report is produced), the status verdict is the first
matching rule of, top to bottom: not readable or not executable → error;
owner mismatch → error; not writable → warning; files inconsistent →
warning; group permissions incomplete → warning; others missing read or
execute → warning; otherwise ok. -/
theorem check_directory_permissions_status_precedence (env : ClsEnv) (r : PermReport)
    (h : check_directory_permissions env = .report r) :
    r.status =
      (if !r.readable || !r.executable then "error"
       else if !r.is_odoo_owner then "error"
       else if !r.writable then "warning"
       else if !r.files_consistent then "warning"
       else if !(r.group_readable && r.group_writable && r.group_executable) then "warning"
       else if !(r.others_readable && r.others_executable) then "warning"
       else "ok") := by
  unfold check_directory_permissions at h
  split at h
  · exact absurd h (by simp)
  · cases hstat : env.dirStat with
    | none => rw [hstat] at h; exact absurd h (by simp)
    | some t =>
      obtain ⟨dirMode, dirUid, dirGid⟩ := t
      rw [hstat] at h
      cases hlog : env.loginUser with
      | none =>
        simp only [hlog] at h
        exact absurd h (by simp)
      | some u =>
        simp only [hlog] at h
        cases h
        rfl

/-- Witness for `check_directory_permissions_status_precedence` on the
healthy sample directory. -/
theorem check_directory_permissions_status_precedence_witness :
    reportOfOk.status =
      (if !reportOfOk.readable || !reportOfOk.executable then "error"
       else if !reportOfOk.is_odoo_owner then "error"
       else if !reportOfOk.writable then "warning"
       else if !reportOfOk.files_consistent then "warning"
       else if !(reportOfOk.group_readable && reportOfOk.group_writable &&
           reportOfOk.group_executable) then "warning"
       else if !(reportOfOk.others_readable && reportOfOk.others_executable) then "warning"
       else "ok") :=
  check_directory_permissions_status_precedence clsEnvOk reportOfOk (by decide)

/-- C7: `check_directory_permissions` never throws: a missing path yields
the `not_found` dict; a failure while inspecting an existing path
(`os.stat` or `os.getlogin` raising — the only fallible steps not caught
internally) yields the `error` dict with a message; otherwise a full
report is produced. -/
theorem check_directory_permissions_never_throws (env : ClsEnv) :
    (env.pathExists = false → ∃ m, check_directory_permissions env = .notFound m) ∧
    (env.pathExists = true → env.dirStat = none →
      ∃ m, check_directory_permissions env = .errorResult m) ∧
    (env.pathExists = true → env.loginUser = none →
      ∃ m, check_directory_permissions env = .errorResult m) ∧
    (env.pathExists = true → env.dirStat ≠ none → env.loginUser ≠ none →
      ∃ r, check_directory_permissions env = .report r) := by
  refine ⟨?_, ?_, ?_, ?_⟩
  · intro hp
    unfold check_directory_permissions
    rw [hp]
    exact ⟨_, rfl⟩
  · intro hp hstat
    unfold check_directory_permissions
    rw [hp, hstat]
    exact ⟨_, rfl⟩
  · intro hp hlog
    unfold check_directory_permissions
    rw [hp]
    cases hstat : env.dirStat with
    | none => exact ⟨_, rfl⟩
    | some t =>
      obtain ⟨dirMode, dirUid, dirGid⟩ := t
      rw [hlog]
      exact ⟨_, rfl⟩
  · intro hp hstat hlog
    unfold check_directory_permissions
    rw [hp]
    cases hstat2 : env.dirStat with
    | none => exact absurd hstat2 hstat
    | some t =>
      obtain ⟨dirMode, dirUid, dirGid⟩ := t
      cases hlog2 : env.loginUser with
      | none => exact absurd hlog2 hlog
      | some u =>
        exact ⟨_, rfl⟩

/-- Witness for `check_directory_permissions_never_throws`: the missing
path yields the `not_found` dict. -/
theorem check_directory_permissions_never_throws_witness :
    ∃ m, check_directory_permissions clsEnvMissing = .notFound m :=
  (check_directory_permissions_never_throws clsEnvMissing).1 rfl

/-- The count pair produced by the recursive phase is `(0, 1)` on an early
failure, and otherwise has a positive fixed count with at most one
failure. -/
theorem recursivePhase_counts (s : FixState) :
    ((recursivePhase s).1 = 0 ∧ (recursivePhase s).2.1 = 1) ∨
    (0 < (recursivePhase s).1 ∧
      ((recursivePhase s).2.1 = 0 ∨ (recursivePhase s).2.1 = 1)) := by
  unfold recursivePhase
  dsimp only
  split
  · exact Or.inl ⟨rfl, rfl⟩
  · split
    · exact Or.inl ⟨rfl, rfl⟩
    · split
      · exact Or.inr ⟨pyCountLines_pos (findCountLines (chownRecursive s)), Or.inr rfl⟩
      · split
        · exact Or.inr ⟨pyCountLines_pos (findCountLines (chownRecursive s)), Or.inr rfl⟩
        · exact Or.inr ⟨pyCountLines_pos (findCountLines (chownRecursive s)), Or.inl rfl⟩

/-- C3: for every reconcile run that returns an outcome with counts, the
outcome's status is `fixed` iff `failed_count = 0` (and then the fixed
count is positive), `partially_fixed` iff both counts are positive,
`failed` iff `fixed_count = 0`; and `success` is true iff
`fixed_count > 0`. -/
theorem fix_directory_permissions_status_rules (s : FixState) (success : Bool)
    (status : String) (f fl : Nat)
    (h : (fix_directory_permissions s).1 = .counted success status f fl) :
    (status = "fixed" ↔ fl = 0 ∧ 0 < f) ∧
    (status = "partially_fixed" ↔ 0 < f ∧ 0 < fl) ∧
    (status = "failed" ↔ f = 0) ∧
    (success = true ↔ 0 < f) := by
  have hrp := recursivePhase_counts (chownRoot (chmodRoot s))
  unfold fix_directory_permissions at h
  dsimp only at h
  split at h
  · simp at h
  · split at h
    · simp at h
    · split at h
      · simp at h
      · split at h
        · simp at h
        · simp only [FixResult.counted.injEq] at h
          obtain ⟨hsu, hst, hf, hfl⟩ := h
          subst hsu hst hf hfl
          rcases hrp with ⟨hf0, hfl1⟩ | ⟨hfpos, hfl01⟩
          · rw [hf0, hfl1]
            decide
          · obtain ⟨n, hn⟩ : ∃ n, (recursivePhase (chownRoot (chmodRoot s))).1 = n + 1 :=
              ⟨(recursivePhase (chownRoot (chmodRoot s))).1 - 1, by omega⟩
            rcases hfl01 with hfl0 | hfl1
            · rw [hfl0, hn]
              simp [Nat.succ_pos]
            · rw [hfl1, hn]
              simp [Nat.succ_pos]

/-- Witness for `fix_directory_permissions_status_rules` on the sample
one-file reconcile run. -/
theorem fix_directory_permissions_status_rules_witness :
    (("fixed" : String) = "fixed" ↔ (0 : Nat) = 0 ∧ 0 < 1) ∧
    (("fixed" : String) = "partially_fixed" ↔ 0 < 1 ∧ (0 : Nat) < 0) ∧
    (("fixed" : String) = "failed" ↔ (1 : Nat) = 0) ∧
    (true = true ↔ (0 : Nat) < 1) :=
  fix_directory_permissions_status_rules fixStateOk true "fixed" 1 0 (by decide)

/-- C4 (counterexample): on a reconcile run over a tree consisting of the
directory alone, with every command succeeding, the code returns
`fixed_count = 1, failed_count = 0`, while the claim's accounting — one
item each for the directory's own mode change and ownership change plus
one item per object visited in the recursive walk (the root) — totals 3. -/
theorem fix_directory_permissions_item_count_cex :
    (fix_directory_permissions fixStateOne).1 = .counted true "fixed" 1 0 ∧
    ¬(1 + 0 = 2 + (fixStateOne.children.length + 1)) := by
  decide

/-- C4 (amended): on a reconcile run on an existing directory where the
setup commands, the recursive chown and the counting find succeed,
`fixed_count` equals the number of lines the counting find prints — which,
due to find's operator precedence with an explicit `-print`, is the
directory itself plus every contained directory, with contained files
traversed but never counted — the directory's own mode and ownership
changes are never counted as items, and `failed_count` is 0 when both
recursive chmod phases succeed and 1 when one of them fails. -/
theorem fix_directory_permissions_count_amended (s : FixState)
    (h1 : s.pathExists = true) (h2 : s.chmodRootOk = true)
    (h3 : s.chownRootOk = true) (h4 : s.loginOk = true)
    (h5 : s.chownROk = true) (h6 : s.findCountOk = true) :
    (fix_directory_permissions s).1 =
      .counted true
        (if s.chmodDirsOk && s.chmodFilesOk then "fixed" else "partially_fixed")
        ((s.children.filter (fun o => o.isDir)).length + 1)
        (if s.chmodDirsOk && s.chmodFilesOk then 0 else 1) := by
  have hpos : 0 < (s.children.filter (fun o => o.isDir)).length + 1 := Nat.succ_pos _
  unfold fix_directory_permissions recursivePhase
  cases hd : s.chmodDirsOk with
  | false =>
    simp [chmodRoot, chownRoot, chownRecursive, findCountLines, pyCountLines,
      List.filter_map, Function.comp, h1, h2, h3, h4, h5, h6, hd, hpos]
    exact congrArg List.length (List.filter_congr fun o _ => rfl)
  | true =>
    cases hfi : s.chmodFilesOk with
    | false =>
      simp [chmodRoot, chownRoot, chownRecursive, chmodDirsRecursive,
        findCountLines, pyCountLines, List.filter_map, Function.comp,
        h1, h2, h3, h4, h5, h6, hd, hfi, hpos]
      exact congrArg List.length (List.filter_congr fun o _ => rfl)
    | true =>
      simp [chmodRoot, chownRoot, chownRecursive, chmodDirsRecursive,
        chmodFilesRecursive, findCountLines, pyCountLines,
        List.filter_map, Function.comp,
        h1, h2, h3, h4, h5, h6, hd, hfi, hpos]
      exact congrArg List.length (List.filter_congr fun o _ => rfl)

/-- Witness for `fix_directory_permissions_count_amended` on the sample
one-file reconcile run (one contained file, zero contained directories, so
the count is 1). -/
theorem fix_directory_permissions_count_amended_witness :
    (fix_directory_permissions fixStateOk).1 =
      .counted true
        (if fixStateOk.chmodDirsOk && fixStateOk.chmodFilesOk then "fixed"
         else "partially_fixed")
        ((fixStateOk.children.filter (fun o => o.isDir)).length + 1)
        (if fixStateOk.chmodDirsOk && fixStateOk.chmodFilesOk then 0 else 1) :=
  fix_directory_permissions_count_amended fixStateOk rfl rfl rfl rfl rfl rfl

/-- C5 (counterexample): on a correctly-owned private directory of mode
0700 containing one file of mode 0600, the bulk find strategy reports
`files_consistent = false` (the file fails the fixed `-perm -664` target),
while the reference definition — group/other read/write bits of each
sampled file compared against the directory's own — reports consistency,
so the two verdicts differ. -/
theorem files_consistent_refinement_cex :
    CheckResult.filesConsistentOf (check_directory_permissions clsEnvPrivate)
      = some false ∧
    filesConsistentSpec clsEnvPrivate = true := by
  decide

/-- C5 (amended): the bulk find strategy's verdict is not the directory-
relative reference comparison; instead, when the find machinery works,
`files_consistent` is false exactly when some entry within depth 3
matches one of the three staged fixed-target queries: the first find's
printed predicate (an entry that is not a file with a non-odoo user, whose
group is not the odoo group), a file lacking the 664 permission bits, or a
directory lacking the 775 permission bits. -/
theorem consistency_scan_characterization (env : ClsEnv) (o g : Bool)
    (hf : env.findOk = true) :
    ((consistencyScan env o g).1 = false ↔
      ∃ e ∈ env.tree,
        find1Hit env e = true ∨ find2Hit e = true ∨ find3Hit e = true) := by
  unfold consistencyScan
  rw [hf]
  simp only [if_true]
  cases h1 : env.tree.find? (find1Hit env) with
  | some e =>
    simp only []
    constructor
    · intro _
      exact ⟨e, List.mem_of_find?_eq_some h1, Or.inl (List.find?_some h1)⟩
    · intro _
      trivial
  | none =>
    have H1 := List.find?_eq_none.mp h1
    cases h2 : env.tree.find? find2Hit with
    | some e =>
      simp only []
      constructor
      · intro _
        exact ⟨e, List.mem_of_find?_eq_some h2, Or.inr (Or.inl (List.find?_some h2))⟩
      · intro _
        trivial
    | none =>
      have H2 := List.find?_eq_none.mp h2
      cases h3 : env.tree.find? find3Hit with
      | some e =>
        simp only []
        constructor
        · intro _
          exact ⟨e, List.mem_of_find?_eq_some h3, Or.inr (Or.inr (List.find?_some h3))⟩
        · intro _
          trivial
      | none =>
        have H3 := List.find?_eq_none.mp h3
        simp only []
        constructor
        · intro htf
          exact absurd htf (by decide)
        · rintro ⟨e, he, hcase | hcase | hcase⟩
          · exact absurd hcase (H1 e he)
          · exact absurd hcase (H2 e he)
          · exact absurd hcase (H3 e he)

/-- Witness for `consistency_scan_characterization` on the private sample
directory. -/
theorem consistency_scan_characterization_witness :
    ((consistencyScan clsEnvPrivate true true).1 = false ↔
      ∃ e ∈ clsEnvPrivate.tree,
        find1Hit clsEnvPrivate e = true ∨ find2Hit e = true ∨ find3Hit e = true) :=
  consistency_scan_characterization clsEnvPrivate true true rfl

/-- Pointwise idempotence of the reconcile normal form. -/
theorem normObj_idem (u g : String) (o : FsObj) :
    normObj u g (normObj u g o) = normObj u g o := by
  obtain ⟨p, d, m, us, gs⟩ := o
  cases d <;> rfl

/-- The reconcile normal form preserves whether an object is a
directory. -/
theorem normObj_isDir (u g : String) (o : FsObj) :
    (normObj u g o).isDir = o.isDir := by
  obtain ⟨p, d, m, us, gs⟩ := o
  cases d <;> rfl

/-- Mapping an `isDir`-preserving transformation over the children does
not change how many directories the counting find prints. -/
theorem length_filter_isDir_map (f : FsObj → FsObj)
    (hf : ∀ o, (f o).isDir = o.isDir) :
    ∀ c : List FsObj,
      ((c.map f).filter (fun o => o.isDir)).length
        = (c.filter (fun o => o.isDir)).length := by
  intro c
  induction c with
  | nil => rfl
  | cons o t ih =>
    simp only [List.map_cons, List.filter_cons, hf o]
    cases hd : o.isDir <;> simp [ih]

/-- Applying the fully-successful reconcile twice reaches the same state
as applying it once. -/
theorem finalState_idem (s : FixState) : finalState (finalState s) = finalState s := by
  unfold finalState
  simp only [List.map_map]
  congr 1
  exact List.map_congr_left (fun o _ => normObj_idem s.odooUser s.odooGroup o)

/-- A fully successful reconcile run returns `success = true`,
`status = "fixed"`, `fixed_count` = one plus the number of contained
directories (the lines the counting find prints), `failed_count = 0`, and
leaves the filesystem in the reconcile normal form. -/
theorem fix_all_ok (s : FixState) (h1 : s.pathExists = true)
    (h2 : s.chmodRootOk = true) (h3 : s.chownRootOk = true)
    (h4 : s.loginOk = true) (h5 : s.chownROk = true) (h6 : s.findCountOk = true)
    (h7 : s.chmodDirsOk = true) (h8 : s.chmodFilesOk = true) :
    fix_directory_permissions s =
      (.counted true "fixed" ((s.children.filter (fun o => o.isDir)).length + 1) 0,
        finalState s) := by
  have hpos : 0 < (s.children.filter (fun o => o.isDir)).length + 1 := Nat.succ_pos _
  unfold fix_directory_permissions recursivePhase
  simp [chmodRoot, chownRoot, chownRecursive, chmodDirsRecursive, chmodFilesRecursive,
    findCountLines, pyCountLines, finalState, normObj, List.map_map,
    List.filter_map, Function.comp,
    h1, h2, h3, h4, h5, h6, h7, h8, hpos]
  refine ⟨?_, ?_⟩
  · exact congrArg List.length (List.filter_congr fun o _ => rfl)
  · intro o _
    obtain ⟨p, d, m, us, gs⟩ := o
    cases d <;> rfl

/-- C8 (counterexample): calling reconcile twice in succession on a
directory tree consisting of the directory alone, with every command
succeeding, yields on the second call `failed_count = 0` and
`status = "fixed"` but `fixed_count = 1`, not 0 — the code recounts and
reapplies every item. -/
theorem fix_idempotent_fixed_count_cex :
    (fix_directory_permissions (fix_directory_permissions fixStateOne).2).1
      = .counted true "fixed" 1 0 ∧ (1 : Nat) ≠ 0 := by
  decide

/-- C8 (amended): in a system with no concurrent external mutation where
every command succeeds, reconcile is idempotent in outcome and state: the
second call returns exactly the first call's outcome — `failed_count = 0`,
`status = "fixed"` — and the same final state, but `fixed_count` is again
the count the recounting find reports (the directory plus every contained
directory), not 0. -/
theorem fix_directory_permissions_idempotent (s : FixState)
    (h1 : s.pathExists = true) (h2 : s.chmodRootOk = true)
    (h3 : s.chownRootOk = true) (h4 : s.loginOk = true)
    (h5 : s.chownROk = true) (h6 : s.findCountOk = true)
    (h7 : s.chmodDirsOk = true) (h8 : s.chmodFilesOk = true) :
    fix_directory_permissions (fix_directory_permissions s).2
      = fix_directory_permissions s := by
  rw [fix_all_ok s h1 h2 h3 h4 h5 h6 h7 h8]
  have hfix2 := fix_all_ok (finalState s)
    (by simp [finalState, h1]) (by simp [finalState, h2]) (by simp [finalState, h3])
    (by simp [finalState, h4]) (by simp [finalState, h5]) (by simp [finalState, h6])
    (by simp [finalState, h7]) (by simp [finalState, h8])
  have hlen : ((finalState s).children.filter (fun o => o.isDir)).length
      = (s.children.filter (fun o => o.isDir)).length := by
    show (((s.children.map (normObj s.odooUser s.odooGroup)).filter
        (fun o => o.isDir)).length) = _
    exact length_filter_isDir_map (normObj s.odooUser s.odooGroup)
      (normObj_isDir s.odooUser s.odooGroup) s.children
  calc (fix_directory_permissions
          ((FixResult.counted true "fixed"
            ((s.children.filter (fun o => o.isDir)).length + 1) 0, finalState s)).2)
      = fix_directory_permissions (finalState s) := rfl
    _ = (.counted true "fixed"
          (((finalState s).children.filter (fun o => o.isDir)).length + 1) 0,
          finalState (finalState s)) := hfix2
    _ = (.counted true "fixed"
          ((s.children.filter (fun o => o.isDir)).length + 1) 0, finalState s) := by
          rw [finalState_idem, hlen]

/-- Witness for `fix_directory_permissions_idempotent` on the sample
one-file reconcile run. -/
theorem fix_directory_permissions_idempotent_witness :
    fix_directory_permissions (fix_directory_permissions fixStateOk).2
      = fix_directory_permissions fixStateOk :=
  fix_directory_permissions_idempotent fixStateOk rfl rfl rfl rfl rfl rfl rfl rfl

/-- One loop iteration changes the registry entry exactly as `postConf`
describes. -/
theorem processEntry_snd (env : SvcEnv) (m : Dict) (key : String) (sc : ServiceConf) :
    (processEntry env m key sc).2 = postConf env key sc := by
  by_cases hk : key = "postgres" <;> simp [processEntry, postConf, hk]

/-- The loop's accumulated post-call registry. -/
theorem gass_aux_snd (env : SvcEnv) :
    ∀ (l : Services) (m : Dict) (acc : Services),
      (get_all_services_status_aux env l m acc).2
        = acc ++ l.map (fun kv => (kv.1, postConf env kv.1 kv.2)) := by
  intro l
  induction l with
  | nil =>
    intro m acc
    simp [get_all_services_status_aux]
  | cons kv rest ih =>
    intro m acc
    obtain ⟨k, sc⟩ := kv
    simp only [get_all_services_status_aux]
    rw [ih]
    simp [processEntry_snd]

/-- C6 (amended): resolution of a service key is a pure function of the
registry snapshot and the key (it is embedded without any state
threading); `get_all_services_status`, however, does mutate the registry:
after a call every entry is unchanged except the `postgres` entry, whose
present configured `instances` list has been replaced in place by the
configured-plus-discovered list (`postConf`); with auto-detection off or
no `instances` key, the registry is unchanged. -/
theorem get_all_services_status_registry_effect (env : SvcEnv) (services : Services) :
    (get_all_services_status env services).2
      = services.map (fun kv => (kv.1, postConf env kv.1 kv.2)) := by
  simpa [get_all_services_status] using gass_aux_snd env services [] []

/-- Inserting a fresh key appends. -/
theorem dictInsert_fresh (m : Dict) (k v : String) (h : k ∉ m.map Prod.fst) :
    dictInsert m k v = m ++ [(k, v)] := by
  unfold dictInsert
  rw [if_neg]
  intro hc
  exact h (List.elem_iff.mp hc)

/-- The instance loop with fresh, duplicate-free derived keys appends one
pair per instance, each carrying that instance's own queried status. -/
theorem instLoop_fresh (env : SvcEnv) (key : String) :
    ∀ (insts : List String) (m : Dict),
      (∀ i ∈ insts, (key ++ "_" ++ pyReplaceStr "@" "_" i) ∉ m.map Prod.fst) →
      (insts.map (fun i => key ++ "_" ++ pyReplaceStr "@" "_" i)).Nodup →
      instLoop env key insts m
        = m ++ insts.map (fun i =>
            (key ++ "_" ++ pyReplaceStr "@" "_" i, get_service_status env i)) := by
  intro insts
  induction insts with
  | nil =>
    intro m _ _
    simp [instLoop]
  | cons i rest ih =>
    intro m hfresh hnd
    simp only [List.map_cons, List.nodup_cons] at hnd
    simp only [instLoop]
    rw [dictInsert_fresh _ _ _ (hfresh i (List.mem_cons_self i rest))]
    rw [ih (m ++ [(key ++ "_" ++ pyReplaceStr "@" "_" i, get_service_status env i)])]
    · simp
    · intro j hj hmem
      rw [List.map_append, List.mem_append] at hmem
      rcases hmem with hmem | hmem
      · exact hfresh j (List.mem_cons_of_mem i hj) hmem
      · have hje : (key ++ "_" ++ pyReplaceStr "@" "_" j)
            = key ++ "_" ++ pyReplaceStr "@" "_" i := by
          simpa using hmem
        exact hnd.1 (hje ▸ List.mem_map_of_mem _ hj)
    · exact hnd.2

/-- One loop iteration over a dict whose keys avoid the entry's produced
keys appends exactly that entry's pairs. -/
theorem processEntry_fst (env : SvcEnv) (m : Dict) (key : String) (sc : ServiceConf)
    (hfresh : ∀ k ∈ (entryPairs env key sc).map Prod.fst, k ∉ m.map Prod.fst)
    (hnd : ((entryPairs env key sc).map Prod.fst).Nodup) :
    (processEntry env m key sc).1 = m ++ entryPairs env key sc := by
  by_cases hk : key = "postgres"
  · subst hk
    have hEP : entryPairs env "postgres" sc
        = ("postgres", get_service_status env sc.service_name)
          :: (instancesFor env sc).map
              (fun i => ("postgres" ++ "_" ++ pyReplaceStr "@" "_" i,
                get_service_status env i)) := by
      simp [entryPairs]
    have hkeys : (entryPairs env "postgres" sc).map Prod.fst
        = "postgres" :: (instancesFor env sc).map
            (fun i => "postgres" ++ "_" ++ pyReplaceStr "@" "_" i) := by
      rw [hEP]
      simp [List.map_map]
    rw [hkeys] at hfresh hnd
    rw [List.nodup_cons] at hnd
    simp only [processEntry, if_pos rfl]
    rw [dictInsert_fresh _ _ _ (hfresh _ (List.mem_cons_self _ _))]
    rw [instLoop_fresh env "postgres" (instancesFor env sc)]
    · rw [hEP]
      simp
    · intro i hi hmem
      rw [List.map_append, List.mem_append] at hmem
      rcases hmem with hmem | hmem
      · exact hfresh _ (List.mem_cons_of_mem _ (List.mem_map_of_mem _ hi)) hmem
      · have heq : ("postgres" ++ "_" ++ pyReplaceStr "@" "_" i) = "postgres" := by
          simpa using hmem
        exact hnd.1 (List.mem_map.mpr ⟨i, hi, heq⟩)
    · exact hnd.2
  · simp only [processEntry, entryPairs, if_neg hk]
    exact dictInsert_fresh _ _ _ (by
      refine hfresh _ ?_
      simp [entryPairs, hk])

/-- The loop's result dict, when all produced keys are duplicate-free and
avoid the accumulator. -/
theorem gass_aux_fst (env : SvcEnv) :
    ∀ (l : Services) (m : Dict) (acc : Services),
      (∀ k ∈ (allPairs env l).map Prod.fst, k ∉ m.map Prod.fst) →
      ((allPairs env l).map Prod.fst).Nodup →
      (get_all_services_status_aux env l m acc).1 = m ++ allPairs env l := by
  intro l
  induction l with
  | nil =>
    intro m acc _ _
    simp [get_all_services_status_aux, allPairs]
  | cons kv rest ih =>
    intro m acc hfresh hnd
    obtain ⟨k, sc⟩ := kv
    have hsplit : allPairs env ((k, sc) :: rest)
        = entryPairs env k sc ++ allPairs env rest := rfl
    rw [hsplit, List.map_append] at hfresh hnd
    rw [List.nodup_append] at hnd
    obtain ⟨hnd1, hnd2, hdisj⟩ := hnd
    have hfresh1 : ∀ k2 ∈ (entryPairs env k sc).map Prod.fst, k2 ∉ m.map Prod.fst :=
      fun k2 hk2 => hfresh k2 (List.mem_append.mpr (Or.inl hk2))
    simp only [get_all_services_status_aux]
    rw [ih ((processEntry env m k sc).1) (acc ++ [(k, (processEntry env m k sc).2)])]
    · rw [processEntry_fst env m k sc hfresh1 hnd1, hsplit, List.append_assoc]
    · intro k2 hk2
      rw [processEntry_fst env m k sc hfresh1 hnd1, List.map_append, List.mem_append]
      rintro (hmem | hmem)
      · exact hfresh k2 (List.mem_append.mpr (Or.inr hk2)) hmem
      · exact hdisj hmem hk2
    · exact hnd2

/-- C9: each poll is independent: when the produced derived keys are
duplicate-free, the result map pairs every configured entry key with the
status of its own concrete target and every derived instance key with the
status of that instance — each computed by `get_service_status`, a
function only of that target's own query responses — so every entry
appears even when another target's query fails; and a target whose
`systemctl is-active` query raises gets the state string `"error"` rather
than propagating an exception. -/
theorem get_all_services_status_error_isolation (env : SvcEnv) (services : Services)
    (t : String)
    (hnd : ((allPairs env services).map Prod.fst).Nodup)
    (hfail : env.isActive t = none) :
    (get_all_services_status env services).1 = allPairs env services ∧
    get_service_status env t = "error" := by
  constructor
  · have h := gass_aux_fst env services [] [] (by simp) hnd
    simpa [get_all_services_status] using h
  · simp [get_service_status, hfail]

/-- Witness for `get_all_services_status_error_isolation`: the
`postgresql` target's query fails while `odoo` is still polled. -/
theorem get_all_services_status_error_isolation_witness :
    (get_all_services_status svcEnvFail svcRegistryAuto).1
      = allPairs svcEnvFail svcRegistryAuto ∧
    get_service_status svcEnvFail "postgresql" = "error" :=
  get_all_services_status_error_isolation svcEnvFail svcRegistryAuto "postgresql"
    (by decide) (by decide)

end OdooMoon
